import Mathlib

/-!
Shallow embedding of `src/data_stream.py` (opensearch-healpers).

The external document store is abstracted as a handler
`step : σ → Request → Response × σ`: each HTTP call made by the client is
one application of `step`, threading an abstract store state `σ`.  Every
operation of the `OpenSearch` class is embedded as a function that returns
the operation's outcome (`Except Err α`, where `Except.error` models a
propagated Python exception), the object state at exit (`self`; no method
of the class assigns to any attribute, so it is always the input object),
the final store state, the ordered list of HTTP requests issued, and the
ordered list of log records emitted.

JSON bodies are modelled by the inductive `Json`; a failing subscript
chain on a response body (Python `KeyError` / `TypeError` / `ValueError`)
is modelled as the propagated error `Err.jsonError`.  JSON numbers are
modelled as integers (the only number read by the client is the
millisecond creation timestamp).  `requests`' `raise_for_status` raises
exactly for status codes in `[400, 600)`, which is modelled faithfully.
The wall clock (`time.time()`) is modelled as a fixed rational parameter
`now` (seconds); `int(creation_date) / 1000` is Python true division,
modelled exactly in `ℚ`.
-/

inductive Json where
  | null : Json
  | str : String → Json
  | num : Int → Json
  | arr : List Json → Json
  | obj : List (String × Json) → Json

/-- `j[k]` on a JSON object; `none` models a raised `KeyError`/`TypeError`. -/
def Json.getKey : Json → String → Option Json
  | .obj fields, k => fields.lookup k
  | _, _ => none

/-- `j[i]` on a JSON array; `none` models a raised `IndexError`/`TypeError`. -/
def Json.getIdx : Json → Nat → Option Json
  | .arr l, i => l.get? i
  | _, _ => none

/-- Python `int(x)` applied to a JSON value: identity on integers, parse on
strings; `none` models a raised `ValueError`/`TypeError`. -/
def Json.toInt : Json → Option Int
  | .num n => some n
  | .str s => s.toInt?
  | _ => none

/-- An HTTP request issued by the client: method plus full URL (and JSON
body for the one `PUT` that sends one).  Basic-auth credentials and the
`verify=False` flag accompany every request in the source but carry no
information beyond the connection parameters, so they are not repeated
here. -/
inductive Request where
  | get (url : String)
  | put (url : String) (body : Option Json)
  | post (url : String)
  | delete (url : String)

/-- An HTTP response: status code and parsed JSON body. -/
structure Response where
  status : Nat
  body : Json

/-- A propagated Python exception: `requests.HTTPError` from
`raise_for_status`, or a failure while reading the response JSON. -/
inductive Err where
  | httpError (status : Nat)
  | jsonError
deriving DecidableEq

/-- The log records emitted by the source, with their interpolated data. -/
inductive Msg where
  | connectionOk
  | createdTemplate (tname : String)
  | alreadyExists (ds : String)
  | createdDataStream (ds : String)
  | doesNotExist (ds : String)
  | rolledOver (ds : String)
  | deletedIndex (index : String)
  | foundIndices (indices : List String) (ds : String)
  | deletingIndex (index : String) (age : ℚ)
  | finishedCleaning (ds : String)
deriving DecidableEq

inductive LogEntry where
  | info (m : Msg)
  | error (m : Msg)
deriving DecidableEq

/-- The connection parameters held by the `OpenSearch` object; `auth` is
the `HTTPBasicAuth(username, password)` object, modelled by the pair of
credentials it wraps. -/
structure OpenSearch where
  opensearch_url : String
  username : String
  password : String
  auth : String × String

/-- `OpenSearch.__init__`. -/
def OpenSearch.init (opensearch_url username password : String) : OpenSearch :=
  { opensearch_url := opensearch_url
    username := username
    password := password
    auth := (username, password) }

/-- The external store: one HTTP round trip maps a store state and a
request to a response and a new store state. -/
abbrev Step (σ : Type) := σ → Request → Response × σ

/-- A store whose responses do not depend on its state. -/
def pureStep (h : Request → Response) : Step Unit := fun s r => (h r, s)

/-- Outcome of one embedded method call: result (or propagated exception),
object state at exit, store state, requests issued, log records emitted. -/
structure RunS (σ : Type) (α : Type) where
  res : Except Err α
  self : OpenSearch
  st : σ
  trace : List Request
  log : List LogEntry

/-- `requests.Response.raise_for_status`: raises `HTTPError` exactly for
status codes in `[400, 600)`. -/
def raise_for_status (r : Response) : Except Err Unit :=
  if 400 ≤ r.status ∧ r.status < 600 then Except.error (Err.httpError r.status)
  else Except.ok ()

/-- `OpenSearch.check_connection` (src/data_stream.py:17-21). -/
def check_connection {σ : Type} (step : Step σ) (self : OpenSearch) (s : σ) :
    RunS σ Unit :=
  let url := self.opensearch_url ++ "/_cluster/health"
  let resp := (step s (Request.get url)).1
  let s₁ := (step s (Request.get url)).2
  match raise_for_status resp with
  | Except.error e => ⟨Except.error e, self, s₁, [Request.get url], []⟩
  | Except.ok _ =>
      ⟨Except.ok (), self, s₁, [Request.get url], [LogEntry.info Msg.connectionOk]⟩

/-- `OpenSearch.does_data_stream_exist` (src/data_stream.py:24-27). -/
def does_data_stream_exist {σ : Type} (step : Step σ) (self : OpenSearch)
    (data_stream_name : String) (s : σ) : RunS σ Bool :=
  let url := self.opensearch_url ++ "/_data_stream/" ++ data_stream_name
  let resp := (step s (Request.get url)).1
  let s₁ := (step s (Request.get url)).2
  ⟨Except.ok (decide (resp.status = 200)), self, s₁, [Request.get url], []⟩

/-- The index-template body built at src/data_stream.py:34-38. -/
def template_body (data_stream_name : String) : Json :=
  Json.obj [("index_patterns", Json.str data_stream_name),
            ("data_stream", Json.obj []),
            ("priority", Json.num 100)]

/-- `OpenSearch.create_data_stream` (src/data_stream.py:29-55).  The
`response.json()["error"]["type"]` chain at line 49 is read only when the
status is 400; a value that is not a string compares unequal to
`"resource_already_exists_exception"` (as in Python) and falls through to
`raise_for_status`. -/
def create_data_stream {σ : Type} (step : Step σ) (self : OpenSearch)
    (data_stream_name : String) (s : σ) : RunS σ Unit :=
  let index_template_name := data_stream_name ++ "-template"
  let turl := self.opensearch_url ++ "/_index_template/" ++ index_template_name
  let treq := Request.put turl (some (template_body data_stream_name))
  let tresp := (step s treq).1
  let s₁ := (step s treq).2
  match raise_for_status tresp with
  | Except.error e => ⟨Except.error e, self, s₁, [treq], []⟩
  | Except.ok _ =>
    let dsurl := self.opensearch_url ++ "/_data_stream/" ++ data_stream_name
    let dresp := (step s₁ (Request.put dsurl none)).1
    let s₂ := (step s₁ (Request.put dsurl none)).2
    let tr := [treq, Request.put dsurl none]
    let lg := [LogEntry.info (Msg.createdTemplate index_template_name)]
    if dresp.status = 400 then
      match (dresp.body.getKey "error").bind (fun e => e.getKey "type") with
      | none => ⟨Except.error Err.jsonError, self, s₂, tr, lg⟩
      | some (Json.str etype) =>
        if etype = "resource_already_exists_exception" then
          ⟨Except.ok (), self, s₂, tr,
            lg ++ [LogEntry.info (Msg.alreadyExists data_stream_name)]⟩
        else
          match raise_for_status dresp with
          | Except.error e => ⟨Except.error e, self, s₂, tr, lg⟩
          | Except.ok _ =>
              ⟨Except.ok (), self, s₂, tr,
                lg ++ [LogEntry.info (Msg.createdDataStream data_stream_name)]⟩
      | some _ =>
        match raise_for_status dresp with
        | Except.error e => ⟨Except.error e, self, s₂, tr, lg⟩
        | Except.ok _ =>
            ⟨Except.ok (), self, s₂, tr,
              lg ++ [LogEntry.info (Msg.createdDataStream data_stream_name)]⟩
    else
      match raise_for_status dresp with
      | Except.error e => ⟨Except.error e, self, s₂, tr, lg⟩
      | Except.ok _ =>
          ⟨Except.ok (), self, s₂, tr,
            lg ++ [LogEntry.info (Msg.createdDataStream data_stream_name)]⟩

/-- `OpenSearch.rollover_data_stream` (src/data_stream.py:57-65). -/
def rollover_data_stream {σ : Type} (step : Step σ) (self : OpenSearch)
    (data_stream_name : String) (s : σ) : RunS σ Unit :=
  let ex := does_data_stream_exist step self data_stream_name s
  match ex.res with
  | Except.error e => ⟨Except.error e, self, ex.st, ex.trace, ex.log⟩
  | Except.ok b =>
    if b = false then
      ⟨Except.ok (), self, ex.st, ex.trace,
        ex.log ++ [LogEntry.error (Msg.doesNotExist data_stream_name)]⟩
    else
      let url := self.opensearch_url ++ "/" ++ data_stream_name ++ "/_rollover"
      let resp := (step ex.st (Request.post url)).1
      let s₂ := (step ex.st (Request.post url)).2
      match raise_for_status resp with
      | Except.error e => ⟨Except.error e, self, s₂, ex.trace ++ [Request.post url], ex.log⟩
      | Except.ok _ =>
          ⟨Except.ok (), self, s₂, ex.trace ++ [Request.post url],
            ex.log ++ [LogEntry.info (Msg.rolledOver data_stream_name)]⟩

/-- `OpenSearch.delete_index` (src/data_stream.py:67-71). -/
def delete_index {σ : Type} (step : Step σ) (self : OpenSearch)
    (index_name : String) (s : σ) : RunS σ Unit :=
  let url := self.opensearch_url ++ "/" ++ index_name
  let resp := (step s (Request.delete url)).1
  let s₁ := (step s (Request.delete url)).2
  match raise_for_status resp with
  | Except.error e => ⟨Except.error e, self, s₁, [Request.delete url], []⟩
  | Except.ok _ =>
      ⟨Except.ok (), self, s₁, [Request.delete url],
        [LogEntry.info (Msg.deletedIndex index_name)]⟩

/-- The list comprehension `[idx["index_name"] for idx in ...]` at
src/data_stream.py:84.  A missing `"index_name"` key raises; an
`index_name` that is not a string is likewise mapped to a JSON error
(the source would carry the non-string value into a URL). -/
def indexNames : List Json → Option (List String)
  | [] => some []
  | j :: rest =>
    match j.getKey "index_name" with
    | some (Json.str s) => (indexNames rest).map (fun l => s :: l)
    | _ => none

/-- `response.json()["data_streams"][0]["indices"]`, then the name of each
entry (src/data_stream.py:82-84). -/
def extractIndices (j : Json) : Option (List String) :=
  match j.getKey "data_streams" with
  | none => none
  | some dss =>
    match dss.getIdx 0 with
    | none => none
    | some ds0 =>
      match ds0.getKey "indices" with
      | some (Json.arr l) => indexNames l
      | _ => none

/-- `response.json()[index]["settings"]["index"]["creation_date"]`, parsed
with `int(...)` (src/data_stream.py:93-94). -/
def extractCreationDate (body : Json) (index : String) : Option Int :=
  ((((body.getKey index).bind (fun a => a.getKey "settings")).bind
      (fun b => b.getKey "index")).bind
      (fun c => c.getKey "creation_date")).bind Json.toInt

/-- `indices_creation_dates[index] = v`: Python dict assignment — update in
place if the key is present, else append. -/
def dictInsert (d : List (String × ℚ)) (k : String) (v : ℚ) : List (String × ℚ) :=
  if k ∈ d.map Prod.fst then
    d.map (fun p => if p.1 = k then (k, v) else p)
  else d ++ [(k, v)]

/-- The first loop of `clean_old_data_stream_indices`
(src/data_stream.py:88-94): query each backing index's settings and record
`int(creation_date) / 1000` (Python true division, exact in `ℚ`). -/
def collectCreationDates {σ : Type} (step : Step σ) (self : OpenSearch) :
    σ → List String → List (String × ℚ) → RunS σ (List (String × ℚ))
  | s, [], acc => ⟨Except.ok acc, self, s, [], []⟩
  | s, index :: rest, acc =>
    let url := self.opensearch_url ++ "/" ++ index
    let resp := (step s (Request.get url)).1
    let s₁ := (step s (Request.get url)).2
    match raise_for_status resp with
    | Except.error e => ⟨Except.error e, self, s₁, [Request.get url], []⟩
    | Except.ok _ =>
      match extractCreationDate resp.body index with
      | none => ⟨Except.error Err.jsonError, self, s₁, [Request.get url], []⟩
      | some n =>
        let r := collectCreationDates step self s₁ rest
          (dictInsert acc index ((n : ℚ) / 1000))
        ⟨r.res, self, r.st, Request.get url :: r.trace, r.log⟩

/-- The second loop of `clean_old_data_stream_indices`
(src/data_stream.py:96-99): delete each recorded index whose age strictly
exceeds `retention_period_days * 24 * 60 * 60` seconds. -/
def deleteOldIndices {σ : Type} (step : Step σ) (self : OpenSearch) (now : ℚ)
    (retention_period_days : Int) : σ → List (String × ℚ) → RunS σ Unit
  | s, [] => ⟨Except.ok (), self, s, [], []⟩
  | s, (index, creation_date) :: rest =>
    if now - creation_date > (retention_period_days : ℚ) * 24 * 60 * 60 then
      let dl := delete_index step self index s
      let lg := LogEntry.info (Msg.deletingIndex index (now - creation_date)) :: dl.log
      match dl.res with
      | Except.error e => ⟨Except.error e, self, dl.st, dl.trace, lg⟩
      | Except.ok _ =>
        let r := deleteOldIndices step self now retention_period_days dl.st rest
        ⟨r.res, self, r.st, dl.trace ++ r.trace, lg ++ r.log⟩
    else
      deleteOldIndices step self now retention_period_days s rest

/-- `OpenSearch.clean_old_data_stream_indices` (src/data_stream.py:73-101). -/
def clean_old_data_stream_indices {σ : Type} (step : Step σ) (self : OpenSearch)
    (data_stream_name : String) (retention_period_days : Int) (now : ℚ) (s : σ) :
    RunS σ Unit :=
  let ex := does_data_stream_exist step self data_stream_name s
  match ex.res with
  | Except.error e => ⟨Except.error e, self, ex.st, ex.trace, ex.log⟩
  | Except.ok b =>
    if b = false then
      ⟨Except.ok (), self, ex.st, ex.trace,
        ex.log ++ [LogEntry.error (Msg.doesNotExist data_stream_name)]⟩
    else
      let url := self.opensearch_url ++ "/_data_stream/" ++ data_stream_name
      let resp := (step ex.st (Request.get url)).1
      let s₁ := (step ex.st (Request.get url)).2
      let tr0 := ex.trace ++ [Request.get url]
      match raise_for_status resp with
      | Except.error e => ⟨Except.error e, self, s₁, tr0, ex.log⟩
      | Except.ok _ =>
        match extractIndices resp.body with
        | none => ⟨Except.error Err.jsonError, self, s₁, tr0, ex.log⟩
        | some indices =>
          let lg0 := ex.log ++ [LogEntry.info (Msg.foundIndices indices data_stream_name)]
          let c := collectCreationDates step self s₁ indices []
          match c.res with
          | Except.error e => ⟨Except.error e, self, c.st, tr0 ++ c.trace, lg0⟩
          | Except.ok dates =>
            let d := deleteOldIndices step self now retention_period_days c.st dates
            match d.res with
            | Except.error e =>
                ⟨Except.error e, self, d.st, tr0 ++ c.trace ++ d.trace, lg0 ++ d.log⟩
            | Except.ok _ =>
                ⟨Except.ok (), self, d.st, tr0 ++ c.trace ++ d.trace,
                  lg0 ++ d.log ++ [LogEntry.info (Msg.finishedCleaning data_stream_name)]⟩

/-- Modelled from the spec: the external document-store management API
(spec §6), which is not part of this repository.  Only the behaviour the
spec documents is modelled: a template upsert (`PUT` with a body) always
succeeds; creating a data stream (`PUT` without a body) succeeds when the
name is new and answers HTTP 400 with error type
`resource_already_exists_exception` when it already exists; resources are
keyed by their URL. -/
structure StoreState where
  templates : List String
  dataStreams : List String
deriving DecidableEq

/-- The 400 body the store answers for a create on an existing data
stream (spec §6). -/
def alreadyExistsBody : Json :=
  Json.obj [("error", Json.obj [("type", Json.str "resource_already_exists_exception")])]

/-- Modelled from the spec: one round trip against the documented store
(spec §6); see `StoreState`. -/
def storeStep : Step StoreState := fun st req =>
  match req with
  | Request.put url (some _) =>
      (⟨200, Json.obj []⟩,
        { st with templates := if url ∈ st.templates then st.templates else st.templates ++ [url] })
  | Request.put url none =>
      if url ∈ st.dataStreams then (⟨400, alreadyExistsBody⟩, st)
      else (⟨200, Json.obj []⟩, { st with dataStreams := st.dataStreams ++ [url] })
  | _ => (⟨200, Json.obj []⟩, st)

/-- The dictionary built by the settings loop when the settings query for
index `i` yields the value `v i`: one `dictInsert` per backing index, in
order. -/
def buildDates (v : String → ℚ) : List String → List (String × ℚ) → List (String × ℚ)
  | [], acc => acc
  | i :: rest, acc => buildDates v rest (dictInsert acc i (v i))

/-- The log records emitted by the deletion loop when every delete
succeeds. -/
def deletionLog (now : ℚ) (retention_period_days : Int) : List (String × ℚ) → List LogEntry
  | [] => []
  | (index, creation_date) :: rest =>
    if now - creation_date > (retention_period_days : ℚ) * 24 * 60 * 60 then
      LogEntry.info (Msg.deletingIndex index (now - creation_date))
        :: LogEntry.info (Msg.deletedIndex index)
        :: deletionLog now retention_period_days rest
    else deletionLog now retention_period_days rest

instance {ε α : Type} [DecidableEq ε] [DecidableEq α] : DecidableEq (Except ε α)
  | Except.ok a, Except.ok b =>
      if h : a = b then isTrue (by rw [h]) else isFalse (by intro hh; cases hh; exact h rfl)
  | Except.error a, Except.error b =>
      if h : a = b then isTrue (by rw [h]) else isFalse (by intro hh; cases hh; exact h rfl)
  | Except.ok _, Except.error _ => isFalse (by intro hh; cases hh)
  | Except.error _, Except.ok _ => isFalse (by intro hh; cases hh)

/-! Concrete fixtures used by witnesses and counterexamples. -/

def osX : OpenSearch := OpenSearch.init "http://docstore" "admin" "pw"

/-- A store that answers 404 to everything. -/
def hAll404 : Request → Response := fun _ => ⟨404, Json.null⟩

/-- A store that answers 300 (a non-2xx status outside `[400, 600)`) to
everything. -/
def hAll300 : Request → Response := fun _ => ⟨300, Json.null⟩

/-- A store that answers 300 to the bodyless data-stream `PUT` and 200 to
everything else. -/
def hDs300 : Request → Response
  | Request.put _ none => ⟨300, Json.null⟩
  | _ => ⟨200, Json.null⟩

/-- A store that answers 300 to the template `PUT` and 200 to everything
else. -/
def hTpl300 : Request → Response
  | Request.put _ (some _) => ⟨300, Json.null⟩
  | _ => ⟨200, Json.null⟩

/-- A store that answers 500 to the template `PUT` and 200 to everything
else. -/
def hTpl500 : Request → Response
  | Request.put _ (some _) => ⟨500, Json.null⟩
  | _ => ⟨200, Json.null⟩

/-- A store that answers 400 with the conflict body to the data-stream
`PUT` and 200 to everything else. -/
def hConflict : Request → Response
  | Request.put _ none => ⟨400, alreadyExistsBody⟩
  | _ => ⟨200, Json.null⟩

/-- A store holding one data stream with no backing indices. -/
def hEmptyStream : Request → Response := fun _ =>
  ⟨200, Json.obj [("data_streams", Json.arr [Json.obj [("indices", Json.arr [])]])]⟩

def dsBody1 : Json :=
  Json.obj [("data_streams", Json.arr [Json.obj [("indices",
    Json.arr [Json.obj [("index_name", Json.str "idx-old")],
              Json.obj [("index_name", Json.str "idx-new")]])]])]

def settingsBody (i : String) (ms : Int) : Json :=
  Json.obj [(i, Json.obj [("settings", Json.obj [("index",
    Json.obj [("creation_date", Json.num ms)])])])]

/-- A store holding data stream `logs` with backing indices `idx-old`
(created at epoch 0 ms) and `idx-new` (created at 950400000 ms). -/
def h1 : Request → Response
  | Request.get u =>
    if u = "http://docstore/_data_stream/logs" then ⟨200, dsBody1⟩
    else if u = "http://docstore/idx-old" then ⟨200, settingsBody "idx-old" 0⟩
    else if u = "http://docstore/idx-new" then ⟨200, settingsBody "idx-new" 950400000⟩
    else ⟨200, Json.null⟩
  | _ => ⟨200, Json.null⟩

def creationOf : String → Int := fun i => if i = "idx-old" then 0 else 950400000

/-! Theorems. -/

/-- Claim C4: `does_data_stream_exist` never raises, and returns `true` exactly
when the store answers the existence query with HTTP 200; every other
status yields `false`. -/
theorem does_data_stream_exist_iff_200 {σ : Type} (step : Step σ) (self : OpenSearch)
    (name : String) (s : σ) :
    (∃ b, (does_data_stream_exist step self name s).res = Except.ok b) ∧
    ((does_data_stream_exist step self name s).res = Except.ok true ↔
      (step s (Request.get (self.opensearch_url ++ "/_data_stream/" ++ name))).1.status = 200) := by
  refine ⟨⟨_, rfl⟩, ?_⟩
  simp [does_data_stream_exist]

/-- Witness for C4 at a store answering 404. -/
theorem does_data_stream_exist_iff_200_witness :
    (∃ b, (does_data_stream_exist (pureStep hAll404) osX "logs" ()).res = Except.ok b) ∧
    ((does_data_stream_exist (pureStep hAll404) osX "logs" ()).res = Except.ok true ↔
      (pureStep hAll404 () (Request.get (osX.opensearch_url ++ "/_data_stream/" ++ "logs"))).1.status
        = 200) :=
  does_data_stream_exist_iff_200 (pureStep hAll404) osX "logs" ()

/-- Claim C7, amended: `check_connection` issues exactly one cluster-health
request; it returns normally and logs success whenever the response status
is outside `[400, 600)` (this includes every 2xx, but also 1xx and 3xx),
and raises exactly when the status is in `[400, 600)`. -/
theorem check_connection_single_request_and_status_branching {σ : Type} (step : Step σ)
    (self : OpenSearch) (s : σ) :
    (check_connection step self s).trace
      = [Request.get (self.opensearch_url ++ "/_cluster/health")] ∧
    (¬(400 ≤ (step s (Request.get (self.opensearch_url ++ "/_cluster/health"))).1.status ∧
        (step s (Request.get (self.opensearch_url ++ "/_cluster/health"))).1.status < 600) →
      (check_connection step self s).res = Except.ok () ∧
      (check_connection step self s).log = [LogEntry.info Msg.connectionOk]) ∧
    ((400 ≤ (step s (Request.get (self.opensearch_url ++ "/_cluster/health"))).1.status ∧
        (step s (Request.get (self.opensearch_url ++ "/_cluster/health"))).1.status < 600) →
      (check_connection step self s).res
          = Except.error (Err.httpError
              (step s (Request.get (self.opensearch_url ++ "/_cluster/health"))).1.status) ∧
      (check_connection step self s).log = []) := by
  by_cases h : 400 ≤ (step s (Request.get (self.opensearch_url ++ "/_cluster/health"))).1.status ∧
      (step s (Request.get (self.opensearch_url ++ "/_cluster/health"))).1.status < 600 <;>
    simp [check_connection, raise_for_status, h]

/-- Witness for C7 at a store answering 404. -/
theorem check_connection_single_request_and_status_branching_witness :
    (check_connection (pureStep hAll404) osX ()).res = Except.error (Err.httpError 404) ∧
    (check_connection (pureStep hAll404) osX ()).log = [] :=
  (check_connection_single_request_and_status_branching (pureStep hAll404) osX ()).2.2
    (by decide)

/-- Counterexample for C7 as stated: on a 300 response — which is not a
2xx — `check_connection` returns normally and logs success instead of
raising. -/
theorem check_connection_non2xx_counterexample :
    (check_connection (pureStep hAll300) osX ()).res = Except.ok () ∧
    (check_connection (pureStep hAll300) osX ()).log = [LogEntry.info Msg.connectionOk] ∧
    ¬(200 ≤ (hAll300 (Request.get (osX.opensearch_url ++ "/_cluster/health"))).status ∧
      (hAll300 (Request.get (osX.opensearch_url ++ "/_cluster/health"))).status < 300) := by
  decide

/-- Claim C3: when the existence probe does not answer 200, both
`rollover_data_stream` and `clean_old_data_stream_indices` log an error,
return normally, and issue no request beyond the single existence probe. -/
theorem missing_stream_soft_fail {σ : Type} (step : Step σ) (self : OpenSearch)
    (name : String) (retention_period_days : Int) (now : ℚ) (s : σ)
    (h : (step s (Request.get (self.opensearch_url ++ "/_data_stream/" ++ name))).1.status ≠ 200) :
    (rollover_data_stream step self name s).res = Except.ok () ∧
    (rollover_data_stream step self name s).trace
      = [Request.get (self.opensearch_url ++ "/_data_stream/" ++ name)] ∧
    (rollover_data_stream step self name s).log = [LogEntry.error (Msg.doesNotExist name)] ∧
    (clean_old_data_stream_indices step self name retention_period_days now s).res
      = Except.ok () ∧
    (clean_old_data_stream_indices step self name retention_period_days now s).trace
      = [Request.get (self.opensearch_url ++ "/_data_stream/" ++ name)] ∧
    (clean_old_data_stream_indices step self name retention_period_days now s).log
      = [LogEntry.error (Msg.doesNotExist name)] := by
  simp [rollover_data_stream, clean_old_data_stream_indices, does_data_stream_exist, h]

/-- Witness for C3 at a store answering 404. -/
theorem missing_stream_soft_fail_witness :
    (rollover_data_stream (pureStep hAll404) osX "logs" ()).res = Except.ok () ∧
    (rollover_data_stream (pureStep hAll404) osX "logs" ()).trace
      = [Request.get (osX.opensearch_url ++ "/_data_stream/" ++ "logs")] ∧
    (rollover_data_stream (pureStep hAll404) osX "logs" ()).log
      = [LogEntry.error (Msg.doesNotExist "logs")] ∧
    (clean_old_data_stream_indices (pureStep hAll404) osX "logs" 7 0 ()).res = Except.ok () ∧
    (clean_old_data_stream_indices (pureStep hAll404) osX "logs" 7 0 ()).trace
      = [Request.get (osX.opensearch_url ++ "/_data_stream/" ++ "logs")] ∧
    (clean_old_data_stream_indices (pureStep hAll404) osX "logs" 7 0 ()).log
      = [LogEntry.error (Msg.doesNotExist "logs")] :=
  missing_stream_soft_fail (pureStep hAll404) osX "logs" 7 0 () (by decide)

/-- Claim C9: the connection parameters are fixed at construction
(`OpenSearch.init` stores the endpoint and credentials and derives `auth`
from them) and the object state is unchanged by every operation, whatever
its outcome. -/
theorem connection_params_immutable {σ : Type} (step : Step σ) (url user pass : String)
    (self : OpenSearch) (name iname : String) (retention_period_days : Int) (now : ℚ) (s : σ) :
    OpenSearch.init url user pass
      = { opensearch_url := url, username := user, password := pass, auth := (user, pass) } ∧
    (check_connection step self s).self = self ∧
    (does_data_stream_exist step self name s).self = self ∧
    (create_data_stream step self name s).self = self ∧
    (rollover_data_stream step self name s).self = self ∧
    (delete_index step self iname s).self = self ∧
    (clean_old_data_stream_indices step self name retention_period_days now s).self = self := by
  refine ⟨rfl, ?_, rfl, ?_, ?_, ?_, ?_⟩
  · unfold check_connection
    dsimp only
    repeat' split
    all_goals rfl
  · unfold create_data_stream
    dsimp only
    repeat' split
    all_goals rfl
  · unfold rollover_data_stream
    dsimp only
    repeat' split
    all_goals rfl
  · unfold delete_index
    dsimp only
    repeat' split
    all_goals rfl
  · unfold clean_old_data_stream_indices
    dsimp only
    repeat' split
    all_goals rfl

/-- Claim C5, amended: `create_data_stream` issues the index-template upsert
first, addressed by `name ++ "-template"`, with body fields
`index_patterns = name`, a `data_stream` marker object and
`priority = 100`; a template response with status in `[400, 600)` is a
propagated failure and no data-stream request is issued in that case.  (A
template status outside `[400, 600)` — not only 2xx — lets the operation
proceed.) -/
theorem create_template_request_first_and_propagation {σ : Type} (step : Step σ)
    (self : OpenSearch) (name : String) (s : σ) :
    (create_data_stream step self name s).trace.head?
      = some (Request.put (self.opensearch_url ++ "/_index_template/" ++ (name ++ "-template"))
          (some (template_body name))) ∧
    template_body name
      = Json.obj [("index_patterns", Json.str name), ("data_stream", Json.obj []),
                  ("priority", Json.num 100)] ∧
    ((400 ≤ (step s (Request.put
          (self.opensearch_url ++ "/_index_template/" ++ (name ++ "-template"))
          (some (template_body name)))).1.status ∧
      (step s (Request.put
          (self.opensearch_url ++ "/_index_template/" ++ (name ++ "-template"))
          (some (template_body name)))).1.status < 600) →
      (create_data_stream step self name s).res
          = Except.error (Err.httpError (step s (Request.put
              (self.opensearch_url ++ "/_index_template/" ++ (name ++ "-template"))
              (some (template_body name)))).1.status) ∧
      (create_data_stream step self name s).trace
        = [Request.put (self.opensearch_url ++ "/_index_template/" ++ (name ++ "-template"))
            (some (template_body name))] ∧
      (create_data_stream step self name s).log = []) := by
  refine ⟨?_, rfl, ?_⟩
  · unfold create_data_stream
    dsimp only
    repeat' split
    all_goals rfl
  · intro h
    simp [create_data_stream, raise_for_status, h]

/-- Witness for C5: the head of the trace at a concrete store, and the
propagated failure with no second request when the template upsert
answers 500. -/
theorem create_template_request_first_and_propagation_witness :
    (create_data_stream (pureStep hAll404) osX "logs" ()).trace.head?
      = some (Request.put (osX.opensearch_url ++ "/_index_template/" ++ ("logs" ++ "-template"))
          (some (template_body "logs"))) ∧
    (create_data_stream (pureStep hTpl500) osX "logs" ()).res
      = Except.error (Err.httpError (pureStep hTpl500 () (Request.put
          (osX.opensearch_url ++ "/_index_template/" ++ ("logs" ++ "-template"))
          (some (template_body "logs")))).1.status) ∧
    (create_data_stream (pureStep hTpl500) osX "logs" ()).trace
      = [Request.put (osX.opensearch_url ++ "/_index_template/" ++ ("logs" ++ "-template"))
          (some (template_body "logs"))] :=
  ⟨(create_template_request_first_and_propagation (pureStep hAll404) osX "logs" ()).1,
   ((create_template_request_first_and_propagation (pureStep hTpl500) osX "logs" ()).2.2
      (by decide)).1,
   ((create_template_request_first_and_propagation (pureStep hTpl500) osX "logs" ()).2.2
      (by decide)).2.1⟩

/-- Counterexample for C5 as stated: on a 300 template response — which is
not a 2xx — `create_data_stream` does not propagate a failure and does
issue the data-stream creation request (two requests in the trace). -/
theorem create_template_non2xx_counterexample :
    (create_data_stream (pureStep hTpl300) osX "logs" ()).res = Except.ok () ∧
    (create_data_stream (pureStep hTpl300) osX "logs" ()).trace.length = 2 ∧
    ¬(200 ≤ (hTpl300 (Request.put
        (osX.opensearch_url ++ "/_index_template/" ++ ("logs" ++ "-template"))
        (some (template_body "logs")))).status ∧
      (hTpl300 (Request.put
        (osX.opensearch_url ++ "/_index_template/" ++ ("logs" ++ "-template"))
        (some (template_body "logs")))).status < 300) := by
  decide

/-- Claim C2, amended: after a successful template upsert, if the data-stream
creation request answers 400 with error type
`resource_already_exists_exception`, `create_data_stream` logs "already
exists", returns success, and issues no further request; any other
response with status in `[400, 600)` is a propagated failure; a status
outside `[400, 600)` (not only 2xx) is treated as success. -/
theorem create_conflict_noop_and_error_propagation {σ : Type} (step : Step σ)
    (self : OpenSearch) (name : String) (s : σ) (dresp : Response)
    (hd : dresp = (step (step s (Request.put
        (self.opensearch_url ++ "/_index_template/" ++ (name ++ "-template"))
        (some (template_body name)))).2
        (Request.put (self.opensearch_url ++ "/_data_stream/" ++ name) none)).1)
    (htOk : ¬(400 ≤ (step s (Request.put
        (self.opensearch_url ++ "/_index_template/" ++ (name ++ "-template"))
        (some (template_body name)))).1.status ∧
        (step s (Request.put
        (self.opensearch_url ++ "/_index_template/" ++ (name ++ "-template"))
        (some (template_body name)))).1.status < 600)) :
    ((dresp.status = 400 ∧
        (dresp.body.getKey "error").bind (fun e => e.getKey "type")
          = some (Json.str "resource_already_exists_exception")) →
      (create_data_stream step self name s).res = Except.ok () ∧
      (create_data_stream step self name s).log
        = [LogEntry.info (Msg.createdTemplate (name ++ "-template")),
           LogEntry.info (Msg.alreadyExists name)] ∧
      (create_data_stream step self name s).trace
        = [Request.put (self.opensearch_url ++ "/_index_template/" ++ (name ++ "-template"))
            (some (template_body name)),
           Request.put (self.opensearch_url ++ "/_data_stream/" ++ name) none]) ∧
    ((400 ≤ dresp.status ∧ dresp.status < 600 ∧
        ¬(dresp.status = 400 ∧
          (dresp.body.getKey "error").bind (fun e => e.getKey "type")
            = some (Json.str "resource_already_exists_exception"))) →
      ∃ e, (create_data_stream step self name s).res = Except.error e) ∧
    (¬(400 ≤ dresp.status ∧ dresp.status < 600) →
      (create_data_stream step self name s).res = Except.ok ()) := by
  subst hd
  refine ⟨?_, ?_, ?_⟩
  · rintro ⟨h400, htype⟩
    simp [create_data_stream, raise_for_status, htOk, h400, htype]
  · rintro ⟨h4, h6, hnot⟩
    by_cases h400 : (step (step s (Request.put
        (self.opensearch_url ++ "/_index_template/" ++ (name ++ "-template"))
        (some (template_body name)))).2
        (Request.put (self.opensearch_url ++ "/_data_stream/" ++ name) none)).1.status = 400
    · rcases hc : ((step (step s (Request.put
          (self.opensearch_url ++ "/_index_template/" ++ (name ++ "-template"))
          (some (template_body name)))).2
          (Request.put (self.opensearch_url ++ "/_data_stream/" ++ name) none)).1.body.getKey
            "error").bind (fun e => e.getKey "type") with _ | j
      · exact ⟨Err.jsonError, by simp [create_data_stream, raise_for_status, htOk, h400, hc]⟩
      · rcases j with _ | t | n | l | o
        · exact ⟨Err.httpError 400,
            by simp [create_data_stream, raise_for_status, htOk, h400, hc, h4, h6]⟩
        · have ht : t ≠ "resource_already_exists_exception" := by
            intro h
            exact hnot ⟨h400, by rw [hc, h]⟩
          refine ⟨Err.httpError 400, ?_⟩
          simp [create_data_stream, raise_for_status, htOk, h400, hc, ht, h4, h6]
        · exact ⟨Err.httpError 400,
            by simp [create_data_stream, raise_for_status, htOk, h400, hc, h4, h6]⟩
        · exact ⟨Err.httpError 400,
            by simp [create_data_stream, raise_for_status, htOk, h400, hc, h4, h6]⟩
        · exact ⟨Err.httpError 400,
            by simp [create_data_stream, raise_for_status, htOk, h400, hc, h4, h6]⟩
    · refine ⟨Err.httpError (step (step s (Request.put
          (self.opensearch_url ++ "/_index_template/" ++ (name ++ "-template"))
          (some (template_body name)))).2
          (Request.put (self.opensearch_url ++ "/_data_stream/" ++ name) none)).1.status, ?_⟩
      simp [create_data_stream, raise_for_status, htOk, h400, h4, h6]
  · intro hn
    have h400 : (step (step s (Request.put
        (self.opensearch_url ++ "/_index_template/" ++ (name ++ "-template"))
        (some (template_body name)))).2
        (Request.put (self.opensearch_url ++ "/_data_stream/" ++ name) none)).1.status ≠ 400 := by
      intro h
      exact hn ⟨by rw [h], by rw [h]; norm_num⟩
    simp [create_data_stream, raise_for_status, htOk, h400, hn]

/-- Witness for C2: at a store whose data-stream `PUT` answers 400 with
the conflict body, `create_data_stream` succeeds, logs "already exists",
and stops after two requests. -/
theorem create_conflict_noop_and_error_propagation_witness :
    (create_data_stream (pureStep hConflict) osX "logs" ()).res = Except.ok () ∧
    (create_data_stream (pureStep hConflict) osX "logs" ()).log
      = [LogEntry.info (Msg.createdTemplate ("logs" ++ "-template")),
         LogEntry.info (Msg.alreadyExists "logs")] ∧
    (create_data_stream (pureStep hConflict) osX "logs" ()).trace
      = [Request.put (osX.opensearch_url ++ "/_index_template/" ++ ("logs" ++ "-template"))
          (some (template_body "logs")),
         Request.put (osX.opensearch_url ++ "/_data_stream/" ++ "logs") none] :=
  (create_conflict_noop_and_error_propagation (pureStep hConflict) osX "logs" ()
      (hConflict (Request.put (osX.opensearch_url ++ "/_data_stream/" ++ "logs") none))
      rfl (by decide)).1 ⟨rfl, rfl⟩

/-- Counterexample for C2 as stated: a 300 response to the data-stream
creation request — which is not a 2xx — yields success instead of a
propagated failure. -/
theorem create_non2xx_data_stream_counterexample :
    (create_data_stream (pureStep hDs300) osX "logs" ()).res = Except.ok () ∧
    ¬(200 ≤ (hDs300 (Request.put (osX.opensearch_url ++ "/_data_stream/" ++ "logs") none)).status ∧
      (hDs300 (Request.put (osX.opensearch_url ++ "/_data_stream/" ++ "logs") none)).status
        < 300) := by
  decide

/-- Claim C10: whenever `clean_old_data_stream_indices` finds the data stream
(existence probe answers 200) and completes without a propagated failure,
its last log record is the completion message, however many indices were
deleted. -/
theorem clean_logs_completion {σ : Type} (step : Step σ) (self : OpenSearch) (name : String)
    (retention_period_days : Int) (now : ℚ) (s : σ)
    (h200 : (step s (Request.get (self.opensearch_url ++ "/_data_stream/" ++ name))).1.status
      = 200)
    (hok : (clean_old_data_stream_indices step self name retention_period_days now s).res
      = Except.ok ()) :
    (clean_old_data_stream_indices step self name retention_period_days now s).log.getLast?
      = some (LogEntry.info (Msg.finishedCleaning name)) := by
  revert hok
  have hb : decide ((step s (Request.get
      (self.opensearch_url ++ "/_data_stream/" ++ name))).1.status = 200) = true := by
    simp [h200]
  unfold clean_old_data_stream_indices does_data_stream_exist
  dsimp only
  rw [hb]
  simp only [show (true = false) = False by simp, if_false]
  split
  · intro hok
    simp at hok
  · split
    · intro hok
      simp at hok
    · split
      · intro hok
        simp at hok
      · split
        · intro hok
          simp at hok
        · intro _
          dsimp only
          exact List.getLast?_concat _

/-- Witness for C10: a data stream with no backing indices is cleaned
without failure and the completion message is the last record. -/
theorem clean_logs_completion_witness :
    (clean_old_data_stream_indices (pureStep hEmptyStream) osX "logs" 7 0 ()).log.getLast?
      = some (LogEntry.info (Msg.finishedCleaning "logs")) :=
  clean_logs_completion (pureStep hEmptyStream) osX "logs" 7 0 () (by decide) (by decide)

/-- Against the spec-modelled store, `create_data_stream` always returns
success: a fresh name is created (2xx), an existing one answers the
recognized 400 conflict, which the operation treats as success. -/
theorem create_storeStep_ok (self : OpenSearch) (name : String) (st : StoreState) :
    (create_data_stream storeStep self name st).res = Except.ok () := by
  unfold create_data_stream
  dsimp only [storeStep]
  by_cases hm : (self.opensearch_url ++ "/_data_stream/" ++ name) ∈ st.dataStreams
  · simp [raise_for_status, hm, alreadyExistsBody, Json.getKey]
  · simp [raise_for_status, hm]

/-- Claim C6: `create_data_stream` is idempotent against the documented store:
two invocations in sequence both return success; in particular the second
call, finding the template and data stream already present, succeeds via
the recognized conflict response.  (Store behaviour modelled from spec §6;
see `storeStep`.) -/
theorem create_data_stream_idempotent (self : OpenSearch) (name : String) (st : StoreState) :
    (create_data_stream storeStep self name st).res = Except.ok () ∧
    (create_data_stream storeStep self name
        (create_data_stream storeStep self name st).st).res = Except.ok () :=
  ⟨create_storeStep_ok self name st,
   create_storeStep_ok self name (create_data_stream storeStep self name st).st⟩

/-- The one request issued by `delete_index`, whatever the outcome. -/
theorem delete_index_trace {σ : Type} (step : Step σ) (self : OpenSearch)
    (index_name : String) (s : σ) :
    (delete_index step self index_name s).trace
      = [Request.delete (self.opensearch_url ++ "/" ++ index_name)] := by
  unfold delete_index
  dsimp only
  split <;> rfl

/-- Every request issued by the settings pass is a `GET`. -/
theorem collect_trace_get {σ : Type} (step : Step σ) (self : OpenSearch) :
    ∀ (L : List String) (s : σ) (acc : List (String × ℚ)),
      ∀ q ∈ (collectCreationDates step self s L acc).trace, ∃ u, q = Request.get u := by
  intro L
  induction L with
  | nil =>
    intro s acc q hq
    simp [collectCreationDates] at hq
  | cons i rest ih =>
    intro s acc q hq
    unfold collectCreationDates at hq
    dsimp only at hq
    split at hq
    · simp at hq
      exact ⟨_, hq⟩
    · split at hq
      · simp at hq
        exact ⟨_, hq⟩
      · dsimp only at hq
        rcases List.mem_cons.mp hq with h | h
        · exact ⟨_, h⟩
        · exact ih _ _ q h

/-- When the settings pass succeeds it has issued exactly one settings
`GET` per backing index, in order. -/
theorem collect_ok_trace {σ : Type} (step : Step σ) (self : OpenSearch) :
    ∀ (L : List String) (s : σ) (acc : List (String × ℚ)) (dates : List (String × ℚ)),
      (collectCreationDates step self s L acc).res = Except.ok dates →
      (collectCreationDates step self s L acc).trace
        = L.map (fun i => Request.get (self.opensearch_url ++ "/" ++ i)) := by
  intro L
  induction L with
  | nil =>
    intro s acc dates _
    simp [collectCreationDates]
  | cons i rest ih =>
    intro s acc dates
    unfold collectCreationDates
    dsimp only
    split
    · intro h
      simp at h
    · split
      · intro h
        simp at h
      · intro h
        dsimp only at h ⊢
        rw [List.map_cons]
        rw [ih _ _ dates h]

/-- Every request issued by the deletion pass is a `DELETE`. -/
theorem deleteOld_trace_delete {σ : Type} (step : Step σ) (self : OpenSearch)
    (now : ℚ) (retention_period_days : Int) :
    ∀ (dates : List (String × ℚ)) (s : σ),
      ∀ q ∈ (deleteOldIndices step self now retention_period_days s dates).trace,
        ∃ u, q = Request.delete u := by
  intro dates
  induction dates with
  | nil =>
    intro s q hq
    simp [deleteOldIndices] at hq
  | cons p rest ih =>
    rcases p with ⟨i, cd⟩
    intro s q hq
    unfold deleteOldIndices at hq
    dsimp only at hq
    split at hq
    · split at hq
      · rw [delete_index_trace] at hq
        simp at hq
        exact ⟨_, hq⟩
      · dsimp only at hq
        rw [delete_index_trace] at hq
        rcases List.mem_append.mp hq with h | h
        · simp at h
          exact ⟨_, h⟩
        · exact ih _ q h
    · exact ih _ q hq

/-- Claim C8: the trace of `clean_old_data_stream_indices` decomposes into a
prefix of data-stream `GET`s, then the settings `GET`s, then the
`DELETE`s: every settings query precedes every delete.  Moreover, if any
delete was issued, the settings pass ran to completion — one settings
`GET` per backing index of the descriptor — so a failed settings query
aborts the operation before any index is deleted. -/
theorem clean_settings_pass_before_delete_pass {σ : Type} (step : Step σ) (self : OpenSearch)
    (name : String) (retention_period_days : Int) (now : ℚ) (s : σ) :
    ∃ pre gs dl,
      (clean_old_data_stream_indices step self name retention_period_days now s).trace
        = pre ++ gs ++ dl ∧
      (∀ q ∈ pre, ∃ u, q = Request.get u) ∧
      (∀ q ∈ gs, ∃ u, q = Request.get u) ∧
      (∀ q ∈ dl, ∃ u, q = Request.delete u) ∧
      (dl = [] ∨ ∀ L, extractIndices (step ((step s (Request.get
            (self.opensearch_url ++ "/_data_stream/" ++ name))).2) (Request.get
            (self.opensearch_url ++ "/_data_stream/" ++ name))).1.body = some L →
          gs = L.map (fun i => Request.get (self.opensearch_url ++ "/" ++ i))) := by
  by_cases h200 : (step s (Request.get
      (self.opensearch_url ++ "/_data_stream/" ++ name))).1.status = 200
  · have hb : decide ((step s (Request.get
        (self.opensearch_url ++ "/_data_stream/" ++ name))).1.status = 200) = true := by
      simp [h200]
    unfold clean_old_data_stream_indices does_data_stream_exist
    dsimp only
    rw [hb]
    simp only [show (true = false) = False by simp, if_false]
    split
    · refine ⟨[Request.get (self.opensearch_url ++ "/_data_stream/" ++ name)] ++
          [Request.get (self.opensearch_url ++ "/_data_stream/" ++ name)], [], [],
          by simp, ?_, by simp, by simp, Or.inl rfl⟩
      intro q hq
      simp at hq
      exact ⟨_, hq⟩
    · split
      · refine ⟨[Request.get (self.opensearch_url ++ "/_data_stream/" ++ name)] ++
            [Request.get (self.opensearch_url ++ "/_data_stream/" ++ name)], [], [],
            by simp, ?_, by simp, by simp, Or.inl rfl⟩
        intro q hq
        simp at hq
        exact ⟨_, hq⟩
      · rename_i indices heqE
        split
        · rename_i e heqC
          refine ⟨[Request.get (self.opensearch_url ++ "/_data_stream/" ++ name)] ++
              [Request.get (self.opensearch_url ++ "/_data_stream/" ++ name)],
              (collectCreationDates step self ((step ((step s (Request.get
                (self.opensearch_url ++ "/_data_stream/" ++ name))).2) (Request.get
                (self.opensearch_url ++ "/_data_stream/" ++ name))).2) indices []).trace, [],
              by simp, ?_, ?_, by simp, Or.inl rfl⟩
          · intro q hq
            simp at hq
            exact ⟨_, hq⟩
          · exact collect_trace_get step self indices _ []
        · rename_i dates heqC
          split <;>
          · refine ⟨[Request.get (self.opensearch_url ++ "/_data_stream/" ++ name)] ++
                [Request.get (self.opensearch_url ++ "/_data_stream/" ++ name)],
                (collectCreationDates step self ((step ((step s (Request.get
                  (self.opensearch_url ++ "/_data_stream/" ++ name))).2) (Request.get
                  (self.opensearch_url ++ "/_data_stream/" ++ name))).2) indices []).trace,
                (deleteOldIndices step self now retention_period_days
                  ((collectCreationDates step self ((step ((step s (Request.get
                  (self.opensearch_url ++ "/_data_stream/" ++ name))).2) (Request.get
                  (self.opensearch_url ++ "/_data_stream/" ++ name))).2) indices []).st)
                  dates).trace,
                by simp, ?_, ?_, ?_, Or.inr ?_⟩
            · intro q hq
              simp at hq
              exact ⟨_, hq⟩
            · exact collect_trace_get step self indices _ []
            · exact deleteOld_trace_delete step self now retention_period_days dates _
            · intro L hL
              try rw [heqE] at hL
              injection hL with hLi
              subst hLi
              exact collect_ok_trace step self indices _ [] dates heqC
  · have hb : decide ((step s (Request.get
        (self.opensearch_url ++ "/_data_stream/" ++ name))).1.status = 200) = false := by
      simp [h200]
    unfold clean_old_data_stream_indices does_data_stream_exist
    dsimp only
    rw [hb]
    simp only [show (false = false) = True by simp, if_true]
    refine ⟨[Request.get (self.opensearch_url ++ "/_data_stream/" ++ name)], [], [],
        by simp, ?_, by simp, by simp, Or.inl rfl⟩
    intro q hq
    simp at hq
    exact ⟨_, hq⟩

/-- Witness for C8 at a concrete store holding two backing indices. -/
theorem clean_settings_pass_before_delete_pass_witness :
    ∃ pre gs dl,
      (clean_old_data_stream_indices (pureStep h1) osX "logs" 7 1000000 ()).trace
        = pre ++ gs ++ dl ∧
      (∀ q ∈ pre, ∃ u, q = Request.get u) ∧
      (∀ q ∈ gs, ∃ u, q = Request.get u) ∧
      (∀ q ∈ dl, ∃ u, q = Request.delete u) ∧
      (dl = [] ∨ ∀ L, extractIndices (pureStep h1 ((pureStep h1 () (Request.get
            (osX.opensearch_url ++ "/_data_stream/" ++ "logs"))).2) (Request.get
            (osX.opensearch_url ++ "/_data_stream/" ++ "logs"))).1.body = some L →
          gs = L.map (fun i => Request.get (osX.opensearch_url ++ "/" ++ i))) :=
  clean_settings_pass_before_delete_pass (pureStep h1) osX "logs" 7 1000000 ()

/-- A key is present in `dictInsert d k w` exactly when it is present in
`d` or equals `k` (Python dict assignment). -/
theorem dictInsert_mem_key (d : List (String × ℚ)) (k : String) (w : ℚ) (k' : String) :
    (∃ q, (k', q) ∈ dictInsert d k w) ↔ (∃ q, (k', q) ∈ d) ∨ k' = k := by
  unfold dictInsert
  by_cases hk : k ∈ d.map Prod.fst
  · rw [if_pos hk]
    constructor
    · rintro ⟨q, hq⟩
      rcases List.mem_map.mp hq with ⟨p, hp, hfp⟩
      by_cases hpk : p.1 = k
      · right
        rw [if_pos hpk] at hfp
        exact (congrArg Prod.fst hfp).symm
      · left
        rw [if_neg hpk] at hfp
        exact ⟨q, hfp ▸ hp⟩
    · intro h
      rcases List.mem_map.mp hk with ⟨p0, hp0, hp0k⟩
      rcases h with ⟨q, hq⟩ | hkk
      · by_cases hqk : k' = k
        · refine ⟨w, List.mem_map.mpr ⟨p0, hp0, ?_⟩⟩
          rw [if_pos hp0k, hqk]
        · refine ⟨q, List.mem_map.mpr ⟨(k', q), hq, ?_⟩⟩
          rw [if_neg hqk]
      · refine ⟨w, List.mem_map.mpr ⟨p0, hp0, ?_⟩⟩
        rw [if_pos hp0k, hkk]
  · rw [if_neg hk]
    constructor
    · rintro ⟨q, hq⟩
      rcases List.mem_append.mp hq with h | h
      · exact Or.inl ⟨q, h⟩
      · right
        simp at h
        exact h.1
    · intro h
      rcases h with ⟨q, hq⟩ | hkk
      · exact ⟨q, List.mem_append.mpr (Or.inl hq)⟩
      · exact ⟨w, by simp [hkk]⟩

/-- `dictInsert` preserves the invariant that every value equals `v` of
its key. -/
theorem dictInsert_val (d : List (String × ℚ)) (k : String) (w : ℚ) (v : String → ℚ)
    (hd : ∀ p ∈ d, p.2 = v p.1) (hw : w = v k) :
    ∀ p ∈ dictInsert d k w, p.2 = v p.1 := by
  intro p hp
  unfold dictInsert at hp
  by_cases hk : k ∈ d.map Prod.fst
  · rw [if_pos hk] at hp
    rcases List.mem_map.mp hp with ⟨p', hp', hfp⟩
    by_cases hpk : p'.1 = k
    · rw [if_pos hpk] at hfp
      rw [← hfp]
      exact hw
    · rw [if_neg hpk] at hfp
      rw [← hfp]
      exact hd p' hp'
  · rw [if_neg hk] at hp
    rcases List.mem_append.mp hp with h | h
    · exact hd p h
    · simp at h
      rw [h]
      simpa using hw

/-- Key membership in the settings dictionary: exactly the keys of the
accumulator plus the processed indices. -/
theorem buildDates_mem_key (v : String → ℚ) :
    ∀ (L : List String) (acc : List (String × ℚ)) (k : String),
      (∃ q, (k, q) ∈ buildDates v L acc) ↔ (∃ q, (k, q) ∈ acc) ∨ k ∈ L := by
  intro L
  induction L with
  | nil =>
    intro acc k
    simp [buildDates]
  | cons i rest ih =>
    intro acc k
    rw [show buildDates v (i :: rest) acc = buildDates v rest (dictInsert acc i (v i)) from rfl]
    rw [ih, dictInsert_mem_key, List.mem_cons, or_assoc]

/-- Every value in the settings dictionary is `v` of its key. -/
theorem buildDates_val (v : String → ℚ) :
    ∀ (L : List String) (acc : List (String × ℚ)),
      (∀ p ∈ acc, p.2 = v p.1) → ∀ p ∈ buildDates v L acc, p.2 = v p.1 := by
  intro L
  induction L with
  | nil =>
    intro acc h p hp
    simp only [buildDates] at hp
    exact h p hp
  | cons i rest ih =>
    intro acc h p hp
    rw [show buildDates v (i :: rest) acc = buildDates v rest (dictInsert acc i (v i)) from rfl]
      at hp
    exact ih _ (dictInsert_val acc i (v i) v h rfl) p hp

/-- Against a stateless store whose settings responses all succeed with
creation date `c idx` (milliseconds), the settings pass returns the
dictionary mapping each index to `c idx / 1000` seconds. -/
theorem collect_ok_pure (h : Request → Response) (self : OpenSearch) (c : String → Int) :
    ∀ (L : List String) (acc : List (String × ℚ)),
      (∀ idx ∈ L,
        ¬(400 ≤ (h (Request.get (self.opensearch_url ++ "/" ++ idx))).status ∧
           (h (Request.get (self.opensearch_url ++ "/" ++ idx))).status < 600) ∧
        extractCreationDate (h (Request.get (self.opensearch_url ++ "/" ++ idx))).body idx
          = some (c idx)) →
      (collectCreationDates (pureStep h) self () L acc).res
        = Except.ok (buildDates (fun i => (c i : ℚ) / 1000) L acc) := by
  intro L
  induction L with
  | nil =>
    intro acc _
    rfl
  | cons i rest ih =>
    intro acc hset
    have h1 := hset i (List.mem_cons_self i rest)
    unfold collectCreationDates
    dsimp only [pureStep]
    rw [show raise_for_status (h (Request.get (self.opensearch_url ++ "/" ++ i)))
        = Except.ok () from by simp [raise_for_status, h1.1]]
    dsimp only
    rw [h1.2]
    dsimp only
    exact ih _ (fun idx hidx => hset idx (List.mem_cons_of_mem _ hidx))

/-- Against a stateless store whose deletes all succeed, the deletion pass
succeeds and emits exactly `deletionLog`. -/
theorem deleteOld_ok_pure (h : Request → Response) (self : OpenSearch) (now : ℚ)
    (retention_period_days : Int) :
    ∀ (dates : List (String × ℚ)),
      (∀ p ∈ dates,
        ¬(400 ≤ (h (Request.delete (self.opensearch_url ++ "/" ++ p.1))).status ∧
           (h (Request.delete (self.opensearch_url ++ "/" ++ p.1))).status < 600)) →
      (deleteOldIndices (pureStep h) self now retention_period_days () dates).res
        = Except.ok () ∧
      (deleteOldIndices (pureStep h) self now retention_period_days () dates).log
        = deletionLog now retention_period_days dates := by
  intro dates
  induction dates with
  | nil =>
    intro _
    exact ⟨rfl, rfl⟩
  | cons p rest ih =>
    rcases p with ⟨i, cd⟩
    intro hdel
    have hN := hdel (i, cd) (List.mem_cons_self _ _)
    have hrest := fun p hp => hdel p (List.mem_cons_of_mem _ hp)
    obtain ⟨ih1, ih2⟩ := ih hrest
    unfold deleteOldIndices
    dsimp only
    by_cases hcond : now - cd > (retention_period_days : ℚ) * 24 * 60 * 60
    · rw [if_pos hcond]
      have hdl : delete_index (pureStep h) self i ()
          = ⟨Except.ok (), self, (), [Request.delete (self.opensearch_url ++ "/" ++ i)],
             [LogEntry.info (Msg.deletedIndex i)]⟩ := by
        unfold delete_index
        dsimp only [pureStep]
        rw [show raise_for_status (h (Request.delete (self.opensearch_url ++ "/" ++ i)))
            = Except.ok () from by simp [raise_for_status, hN]]
      rw [hdl]
      dsimp only
      refine ⟨ih1, ?_⟩
      simp [deletionLog, if_pos hcond, ih2]
    · rw [if_neg hcond]
      refine ⟨ih1, ?_⟩
      rw [ih2]
      simp [deletionLog, if_neg hcond]

/-- Membership of a deletion record in the deletion-pass log. -/
theorem mem_deletionLog (now : ℚ) (retention_period_days : Int) (idx : String) :
    ∀ (dates : List (String × ℚ)),
      (LogEntry.info (Msg.deletedIndex idx) ∈ deletionLog now retention_period_days dates ↔
        ∃ q, (idx, q) ∈ dates ∧ now - q > (retention_period_days : ℚ) * 24 * 60 * 60) := by
  intro dates
  induction dates with
  | nil =>
    simp [deletionLog]
  | cons p rest ih =>
    rcases p with ⟨i, cd⟩
    by_cases hcond : now - cd > (retention_period_days : ℚ) * 24 * 60 * 60
    · rw [show deletionLog now retention_period_days ((i, cd) :: rest)
          = LogEntry.info (Msg.deletingIndex i (now - cd))
            :: LogEntry.info (Msg.deletedIndex i)
            :: deletionLog now retention_period_days rest from by
        rw [deletionLog]
        rw [if_pos hcond]]
      rw [List.mem_cons, List.mem_cons]
      constructor
      · rintro (habs | h | h)
        · simp at habs
        · have hidx : idx = i := by simpa using h
          exact ⟨cd, by rw [hidx]; exact List.mem_cons_self _ _, hcond⟩
        · rcases ih.mp h with ⟨q, hq, hc⟩
          exact ⟨q, List.mem_cons_of_mem _ hq, hc⟩
      · rintro ⟨q, hq, hc⟩
        rcases List.mem_cons.mp hq with heq | hmem
        · right
          left
          rw [show idx = i from congrArg Prod.fst heq]
        · right
          right
          exact ih.mpr ⟨q, hmem, hc⟩
    · rw [show deletionLog now retention_period_days ((i, cd) :: rest)
          = deletionLog now retention_period_days rest from by
        rw [deletionLog]
        rw [if_neg hcond]]
      rw [ih]
      constructor
      · rintro ⟨q, hq, hc⟩
        exact ⟨q, List.mem_cons_of_mem _ hq, hc⟩
      · rintro ⟨q, hq, hc⟩
        rcases List.mem_cons.mp hq with heq | hmem
        · have h2 : q = cd := congrArg Prod.snd heq
          exact absurd (h2 ▸ hc) hcond
        · exact ⟨q, hmem, hc⟩

/-- Claim C1: against a store in which the data stream exists with backing
indices `L`, every settings query succeeds reporting creation date
`c idx` milliseconds, and every delete succeeds,
`clean_old_data_stream_indices` with retention `d` days deletes a backing
index exactly when `now - c idx / 1000 > d * 86400` seconds — strictly
greater: an index whose age equals the threshold is retained. -/
theorem clean_deletes_iff_retention_exceeded (h : Request → Response) (self : OpenSearch)
    (name : String) (retention_period_days : Int) (now : ℚ) (L : List String)
    (c : String → Int)
    (hds : (h (Request.get (self.opensearch_url ++ "/_data_stream/" ++ name))).status = 200)
    (hbody : extractIndices
      (h (Request.get (self.opensearch_url ++ "/_data_stream/" ++ name))).body = some L)
    (hset : ∀ idx ∈ L,
      ¬(400 ≤ (h (Request.get (self.opensearch_url ++ "/" ++ idx))).status ∧
         (h (Request.get (self.opensearch_url ++ "/" ++ idx))).status < 600) ∧
      extractCreationDate (h (Request.get (self.opensearch_url ++ "/" ++ idx))).body idx
        = some (c idx))
    (hdel : ∀ idx ∈ L,
      ¬(400 ≤ (h (Request.delete (self.opensearch_url ++ "/" ++ idx))).status ∧
         (h (Request.delete (self.opensearch_url ++ "/" ++ idx))).status < 600)) :
    ∀ idx, (LogEntry.info (Msg.deletedIndex idx)
        ∈ (clean_old_data_stream_indices (pureStep h) self name retention_period_days now ()).log
      ↔ (idx ∈ L ∧
          now - (c idx : ℚ) / 1000 > (retention_period_days : ℚ) * 86400)) := by
  intro idx
  have harith : (retention_period_days : ℚ) * 24 * 60 * 60
      = (retention_period_days : ℚ) * 86400 := by ring
  have hb : decide ((h (Request.get
      (self.opensearch_url ++ "/_data_stream/" ++ name))).status = 200) = true := by
    simp [hds]
  unfold clean_old_data_stream_indices does_data_stream_exist
  dsimp only [pureStep]
  rw [hb]
  simp only [show (true = false) = False by simp, if_false]
  rw [show raise_for_status (h (Request.get (self.opensearch_url ++ "/_data_stream/" ++ name)))
      = Except.ok () from by simp [raise_for_status, hds]]
  dsimp only
  rw [hbody]
  dsimp only
  rw [collect_ok_pure h self c L [] hset]
  dsimp only
  rw [show (collectCreationDates (pureStep h) self () L []).st = () from rfl]
  have hkeys : ∀ p ∈ buildDates (fun i => (c i : ℚ) / 1000) L [], p.1 ∈ L := by
    intro p hp
    have h2 := (buildDates_mem_key (fun i => (c i : ℚ) / 1000) L [] p.1).mp ⟨p.2, hp⟩
    simpa using h2
  have hD := deleteOld_ok_pure h self now retention_period_days
      (buildDates (fun i => (c i : ℚ) / 1000) L []) (fun p hp => hdel p.1 (hkeys p hp))
  rw [hD.1]
  dsimp only
  rw [hD.2]
  have hmem : (LogEntry.info (Msg.deletedIndex idx)
      ∈ [] ++ [LogEntry.info (Msg.foundIndices L name)]
        ++ deletionLog now retention_period_days (buildDates (fun i => (c i : ℚ) / 1000) L [])
        ++ [LogEntry.info (Msg.finishedCleaning name)]) ↔
      LogEntry.info (Msg.deletedIndex idx)
        ∈ deletionLog now retention_period_days
            (buildDates (fun i => (c i : ℚ) / 1000) L []) := by
    simp
  rw [hmem, mem_deletionLog, harith]
  constructor
  · rintro ⟨q, hq, hc⟩
    have hqv : q = (c idx : ℚ) / 1000 :=
      buildDates_val (fun i => (c i : ℚ) / 1000) L [] (by simp) (idx, q) hq
    constructor
    · have h2 := (buildDates_mem_key (fun i => (c i : ℚ) / 1000) L [] idx).mp ⟨q, hq⟩
      simpa using h2
    · rw [← hqv]
      exact hc
  · rintro ⟨hL, hc⟩
    obtain ⟨q, hq⟩ := (buildDates_mem_key (fun i => (c i : ℚ) / 1000) L [] idx).mpr (Or.inr hL)
    have hqv : q = (c idx : ℚ) / 1000 :=
      buildDates_val (fun i => (c i : ℚ) / 1000) L [] (by simp) (idx, q) hq
    exact ⟨q, hq, by rw [hqv]; exact hc⟩

/-- Witness for C1 at the retention scenario of the spec: with 7-day
retention and current time 1000000 s, the index created at 0 ms (age
1000000 s > 604800 s) is deleted and the index created at 950400000 ms
(age 49600 s) is retained. -/
theorem clean_deletes_iff_retention_exceeded_witness :
    (LogEntry.info (Msg.deletedIndex "idx-old")
        ∈ (clean_old_data_stream_indices (pureStep h1) osX "logs" 7 1000000 ()).log
      ↔ ("idx-old" ∈ ["idx-old", "idx-new"] ∧
          (1000000 : ℚ) - (creationOf "idx-old" : ℚ) / 1000 > ((7 : Int) : ℚ) * 86400)) ∧
    (LogEntry.info (Msg.deletedIndex "idx-new")
        ∈ (clean_old_data_stream_indices (pureStep h1) osX "logs" 7 1000000 ()).log
      ↔ ("idx-new" ∈ ["idx-old", "idx-new"] ∧
          (1000000 : ℚ) - (creationOf "idx-new" : ℚ) / 1000 > ((7 : Int) : ℚ) * 86400)) :=
  ⟨clean_deletes_iff_retention_exceeded h1 osX "logs" 7 1000000 ["idx-old", "idx-new"]
      creationOf (by decide) (by decide) (by decide) (by decide) "idx-old",
   clean_deletes_iff_retention_exceeded h1 osX "logs" 7 1000000 ["idx-old", "idx-new"]
      creationOf (by decide) (by decide) (by decide) (by decide) "idx-new"⟩
